import Mathlib

set_option maxHeartbeats 1000000

/-!
A shallow embedding of `main.go` of the serverless image-resize endpoint, together
with proofs about its validator, orchestrator and response construction.

Modelling conventions:
* Go strings are byte slices; response bodies are modelled as `List Nat` of byte
  values, paths and header values as Lean `String`s (all ASCII here).
* Go `error` values are `Option GoError` (`none` is Go `nil`).
* The external collaborators — the S3 `GetObject` call and the `imaging`
  decode/encode primitives — are parameters of the embedded `handler`/`resizer`;
  only the dimension behaviour of `imaging.Resize` is modelled concretely, since
  the program branches on image dimensions.
* A nil-pointer dereference in the success-envelope construction is modelled by
  the `HandlerOutcome.panics` outcome.
-/

namespace ImgResize

/-- Bytes of a Go string (Go strings are byte slices; everything here is ASCII). -/
def strBytes (s : String) : List Nat := s.data.map Char.toNat

/-- Model of Go `http.StatusText`, restricted to the codes this program can emit
(Go returns the empty string for unknown codes). -/
def statusText : Nat → String
  | 200 => "OK"
  | 400 => "Bad Request"
  | 404 => "Not Found"
  | 500 => "Internal Server Error"
  | _ => ""

/-- Whether `needle` matches at the front of `hay`. -/
def leadMatch : List Char → List Char → Bool
  | _, [] => true
  | [], _ :: _ => false
  | h :: hs, n :: ns => (h == n) && leadMatch hs ns

/-- Whether `needle` occurs contiguously anywhere in `hay`. -/
def containsSub (needle : List Char) : List Char → Bool
  | [] => leadMatch [] needle
  | h :: t => leadMatch (h :: t) needle || containsSub needle t

/-- Model of Go `strings.Contains s sub`: `sub` occurs as a substring of `s`. -/
def goContains (s sub : String) : Bool := containsSub sub.data s.data

/-- Model of Go `strings.Join` with a separator. -/
def goJoin (sep : String) : List String → String
  | [] => ""
  | [s] => s
  | s :: rest => s ++ sep ++ goJoin sep rest

/-- Decimal value of a digit list, `some` only when nonempty and all digits;
helper for the model of `strconv.Atoi`. -/
def parseDigits (cs : List Char) : Option Nat :=
  if cs.isEmpty then none
  else if cs.all Char.isDigit then
    some (cs.foldl (fun a c => a * 10 + (c.toNat - 48)) 0)
  else none

/-- Model of Go `strconv.Atoi`, returning (value, ok): an optional sign followed by
one or more decimal digits; on a syntax error the value is 0 and ok is `false`
(the handler discards ok, so a missing or non-numeric parameter becomes 0).
Range overflow of Go `int` is not modelled; no claim depends on it. -/
def goAtoi (s : String) : Int × Bool :=
  match s.data with
  | '-' :: rest =>
    match parseDigits rest with
    | some n => (-(n : Int), true)
    | none => (0, false)
  | '+' :: rest =>
    match parseDigits rest with
    | some n => ((n : Int), true)
    | none => (0, false)
  | cs =>
    match parseDigits cs with
    | some n => ((n : Int), true)
    | none => (0, false)

/-- Byte of the standard base64 alphabet at index `i < 64`. -/
def b64char (i : Nat) : Nat :=
  if i < 26 then 65 + i
  else if i < 52 then 97 + (i - 26)
  else if i < 62 then 48 + (i - 52)
  else if i = 62 then 43
  else 47

/-- Index of a standard base64 alphabet byte; `none` outside the alphabet. -/
def b64index (c : Nat) : Option Nat :=
  if 65 ≤ c ∧ c ≤ 90 then some (c - 65)
  else if 97 ≤ c ∧ c ≤ 122 then some (26 + (c - 97))
  else if 48 ≤ c ∧ c ≤ 57 then some (52 + (c - 48))
  else if c = 43 then some 62
  else if c = 47 then some 63
  else none

/-- Model of Go `base64.StdEncoding.EncodeToString` as the byte list of the output
text, with `=` (61) padding. -/
def base64Encode : List Nat → List Nat
  | [] => []
  | [b1] => [b64char (b1 / 4), b64char (b1 % 4 * 16), 61, 61]
  | [b1, b2] => [b64char (b1 / 4), b64char (b1 % 4 * 16 + b2 / 16), b64char (b2 % 16 * 4), 61]
  | b1 :: b2 :: b3 :: rest =>
    b64char (b1 / 4) :: b64char (b1 % 4 * 16 + b2 / 16) ::
      b64char (b2 % 16 * 4 + b3 / 64) :: b64char (b3 % 64) :: base64Encode rest

/-- Standard base64 decoding of a byte list (strict padding), inverse of
`base64Encode` on its image. -/
def base64Decode : List Nat → Option (List Nat)
  | [] => some []
  | c1 :: c2 :: c3 :: c4 :: rest =>
    match b64index c1, b64index c2 with
    | some s1, some s2 =>
      if c3 = 61 ∧ c4 = 61 ∧ rest = [] then some [s1 * 4 + s2 / 16]
      else
        match b64index c3 with
        | some s3 =>
          if c4 = 61 ∧ rest = [] then some [s1 * 4 + s2 / 16, s2 % 16 * 16 + s3 / 4]
          else
            match b64index c4, base64Decode rest with
            | some s4, some tail =>
              some ((s1 * 4 + s2 / 16) :: (s2 % 16 * 16 + s3 / 4) :: (s3 % 4 * 64 + s4) :: tail)
            | _, _ => none
        | none => none
    | _, _ => none
  | _ => none

/-- A decoded image: bounds plus an abstract pixel payload. Images produced by the
standard decoders are zero-origin, so `Bounds().Max.X` is the width and
`Bounds().Max.Y` the height. -/
structure Image where
  width : Nat
  height : Nat
  pix : List Nat
  deriving DecidableEq

/-- `⌊num / den + 1/2⌋` on naturals: the derived-dimension rounding of
`imaging.Resize` (`int(math.Floor(tmp + 0.5))` for a nonnegative ratio; exact
rational arithmetic stands in for Go's float64, which agrees at every input the
proofs below evaluate). -/
def roundHalf (num den : Nat) : Nat := (2 * num + den) / (2 * den)

/-- Dimension-level model of `imaging.Resize` of github.com/disintegration/imaging,
the external resampler `resizer` delegates to: a negative target dimension, a
(0, 0) target, or a degenerate source yields the empty image; when exactly one
target dimension is 0 it is derived from the other so that the aspect ratio is
preserved (minimum 1px); otherwise the target dimensions are taken as given.
Lanczos pixel resampling itself is external and abstracted — the payload is
carried through, only the output bounds are modelled. -/
def imaging_Resize (img : Image) (width height : Int) : Image :=
  if width < 0 ∨ height < 0 then ⟨0, 0, []⟩
  else if width = 0 ∧ height = 0 then ⟨0, 0, []⟩
  else if img.width = 0 ∨ img.height = 0 then ⟨0, 0, []⟩
  else
    let dstW : Nat :=
      if width = 0 then max 1 (roundHalf (height.toNat * img.width) img.height)
      else width.toNat
    let dstH : Nat :=
      if height = 0 then max 1 (roundHalf (width.toNat * img.height) img.width)
      else height.toNat
    ⟨dstW, dstH, img.pix⟩

/-- The external image codec (`imaging.Decode`, `imaging.Encode` with JPEG format),
abstracted to its interface: the program only branches on the decoded bounds and
propagates the byte results. JPEG encoding preserves the encoded image's
dimensions, so statements about output dimensions are statements about the image
handed to `encodeJPEG`. -/
structure Codec where
  decode : List Nat → Except String Image
  encodeJPEG : Image → Except String (List Nat)

/-- `RequestConfig` of main.go. -/
structure RequestConfig where
  Bucket : String
  ObjectKey : String
  Width : Int
  Height : Int
  deriving DecidableEq

/-- A Go storage error: either a value implementing `awserr.Error` with a code, or
a plain error that does not. -/
inductive AwsError where
  | awsErr (code : String)
  | plain
  deriving DecidableEq

/-- Non-nil Go error values that flow through the handler. -/
inductive GoError where
  | fromAws (e : AwsError)
  | codecErr (msg : String)
  | withMessage (cause : GoError) (msg : String)
  deriving DecidableEq

/-- Model of `errors.WithMessage` of github.com/pkg/errors: annotating a nil cause
yields nil. -/
def errorsWithMessage (err : Option GoError) (msg : String) : Option GoError :=
  match err with
  | none => none
  | some e => some (.withMessage e msg)

/-- `s3.GetObjectOutput` as used here: the object bytes and the three metadata
pointers the success envelope dereferences. `none` models a nil pointer. The
last-modified time is represented by its HTTP-date rendering, since the program
only formats and forwards it. -/
structure GetObjectOutput where
  Body : List Nat
  CacheControl : Option String
  LastModified : Option String
  ETag : Option String
  deriving DecidableEq

/-- The storage collaborator: `svc.GetObject` by bucket and key. -/
def StorageFn : Type := String → String → Except AwsError GetObjectOutput

/-- The inbound request: path and query-parameter map (a lookup that yields `none`
for an absent key; Go map lookup of a missing key yields the zero value `""`). -/
structure APIGatewayProxyRequest where
  Path : String
  QueryStringParameters : String → Option String

/-- `events.APIGatewayProxyResponse` with the fields main.go sets; the body is a
byte list. -/
structure APIGatewayProxyResponse where
  Body : List Nat
  Headers : List (String × String)
  StatusCode : Nat
  IsBase64Encoded : Bool
  deriving DecidableEq

/-- Result of one handler invocation: either a normal Go return of
(response, error), or a runtime panic (nil-pointer dereference). -/
inductive HandlerOutcome where
  | panics
  | returns (resp : APIGatewayProxyResponse) (err : Option GoError)
  deriving DecidableEq

/-- `errResponse` of main.go: a plain-text envelope whose body is the standard
status phrase. `IsBase64Encoded` is Go's zero value `false`. -/
def errResponse (code : Nat) : APIGatewayProxyResponse :=
  { Body := strBytes (statusText code)
    Headers := [("Content-Type", "text/plain")]
    StatusCode := code
    IsBase64Encoded := false }

/-- The fixed bucket name of main.go. -/
def bucketName : String := "s3.images.story.io"

/-- The allow-list of main.go. -/
def allowedHosts : List String := ["images.story.io"]

/-- The allow-list condition of main.go line 91:
`strings.Contains(strings.Join(allowedHosts, ","), objectKey)`. -/
def hostAllowed (objectKey : String) : Bool :=
  goContains (goJoin "," allowedHosts) objectKey

/-- `resizer` of main.go: decode, compare the decoded bounds' `Max.X` to the
requested width, pass the source image through unchanged or resize it with
`imaging.Resize`, JPEG-encode, and base64-encode the result. -/
def resizer (codec : Codec) (req : List Nat) (config : RequestConfig) :
    Except GoError (List Nat) :=
  match codec.decode req with
  | .error e => .error (.codecErr e)
  | .ok srcImg =>
    if (srcImg.width : Int) ≤ config.Width then
      match codec.encodeJPEG srcImg with
      | .error e => .error (.codecErr e)
      | .ok buf => .ok (base64Encode buf)
    else
      let dstImg := imaging_Resize srcImg config.Width config.Height
      match codec.encodeJPEG dstImg with
      | .error e => .error (.codecErr e)
      | .ok buf => .ok (base64Encode buf)

/-- The width the handler parses: `width, _ := strconv.Atoi(q["width"])` with the
error discarded. -/
def reqWidth (req : APIGatewayProxyRequest) : Int :=
  (goAtoi ((req.QueryStringParameters "width").getD "")).1

/-- The height the handler parses, like `reqWidth`. -/
def reqHeight (req : APIGatewayProxyRequest) : Int :=
  (goAtoi ((req.QueryStringParameters "height").getD "")).1

/-- `handler` of main.go, parametrised by the external codec and storage client. -/
def handler (codec : Codec) (getObject : StorageFn) (req : APIGatewayProxyRequest) :
    HandlerOutcome :=
  let width := reqWidth req
  let height := reqHeight req
  let objectKey := req.Path
  if hostAllowed objectKey = false then
    .returns (errResponse 400) (errorsWithMessage none "NOT_ALLOWED_HOST")
  else if width ≤ 0 ∧ height ≤ 0 then
    .returns (errResponse 400) (errorsWithMessage none "WIDTH AND HEIGHT INVALID DATA")
  else
    let config : RequestConfig := ⟨bucketName, objectKey, width, height⟩
    match getObject config.Bucket config.ObjectKey with
    | .error e =>
      match e with
      | .awsErr code =>
        if code = "NoSuchBucket" ∨ code = "NoSuchKey" then
          .returns (errResponse 404) none
        else
          .returns (errResponse 500)
            (errorsWithMessage (some (.fromAws (.awsErr code))) "WIDTH AND HEIGHT INVALID DATA")
      | .plain =>
        .returns (errResponse 500)
          (errorsWithMessage (some (.fromAws .plain)) "WIDTH AND HEIGHT INVALID DATA")
    | .ok resp =>
      match resizer codec resp.Body config with
      | .error e =>
        .returns (errResponse 500) (errorsWithMessage (some e) "RESIZE PARSING ERROR")
      | .ok resize =>
        match resp.CacheControl, resp.LastModified, resp.ETag with
        | some cc, some lm, some et =>
          .returns
            { Body := resize
              Headers :=
                [("Content-Type", "image/jpeg"), ("Cache-Control", cc),
                 ("Last-Modified", lm), ("ETag", et)]
              StatusCode := 200
              IsBase64Encoded := true } none
        | _, _, _ => .panics

/-- Status code of an outcome, when it returned. -/
def outcomeStatus : HandlerOutcome → Option Nat
  | .panics => none
  | .returns resp _ => some resp.StatusCode

/-- Body of an outcome, when it returned. -/
def outcomeBody : HandlerOutcome → Option (List Nat)
  | .panics => none
  | .returns resp _ => some resp.Body

/-- The Go error component of an outcome, when it returned
(`some none` is a returned nil error). -/
def outcomeErr : HandlerOutcome → Option (Option GoError)
  | .panics => none
  | .returns _ err => some err

/-- Whether a storage error takes the handler's 404 branch
(`NoSuchBucket` / `NoSuchKey` with the fallthrough). -/
def isNotFoundErr : AwsError → Bool
  | .awsErr code => code == "NoSuchBucket" || code == "NoSuchKey"
  | .plain => false

/-- The image the resizer hands to the JPEG encoder: the source image untouched
when its width does not exceed the requested width, else the resized image. -/
def passOrResize (img : Image) (w h : Int) : Image :=
  if (img.width : Int) ≤ w then img else imaging_Resize img w h

/-- Override one query parameter. -/
def setQuery (q : String → Option String) (k v : String) : String → Option String :=
  fun x => if x = k then some v else q x

/-! ### Helper lemmas -/

/-- Looking up an alphabet byte recovers its index. -/
theorem b64index_b64char : ∀ i, i < 64 → b64index (b64char i) = some i := by decide

/-- No alphabet byte is the padding byte `=` (61). -/
theorem b64char_ne_pad : ∀ i, i < 64 → ¬ b64char i = 61 := by decide

/-- Standard base64 decoding inverts encoding on byte lists. -/
theorem base64_roundtrip :
    ∀ bs : List Nat, (∀ b ∈ bs, b < 256) → base64Decode (base64Encode bs) = some bs
  | [] => fun _ => rfl
  | [b1] => fun h => by
    have hb1 : b1 < 256 := h b1 (by simp)
    simp only [base64Encode, base64Decode, b64index_b64char _ (by omega : b1 / 4 < 64),
      b64index_b64char _ (by omega : b1 % 4 * 16 < 64)]
    rw [if_pos (by simp)]
    refine congrArg Option.some ?_
    rw [List.cons_eq_cons]
    exact ⟨by omega, rfl⟩
  | [b1, b2] => fun h => by
    have hb1 : b1 < 256 := h b1 (by simp)
    have hb2 : b2 < 256 := h b2 (by simp)
    simp only [base64Encode, base64Decode, b64index_b64char _ (by omega : b1 / 4 < 64),
      b64index_b64char _ (by omega : b1 % 4 * 16 + b2 / 16 < 64),
      b64index_b64char _ (by omega : b2 % 16 * 4 < 64)]
    rw [if_neg (fun hc => b64char_ne_pad (b2 % 16 * 4) (by omega) hc.1),
      if_pos (by simp)]
    refine congrArg Option.some ?_
    rw [List.cons_eq_cons]
    refine ⟨by omega, ?_⟩
    rw [List.cons_eq_cons]
    exact ⟨by omega, rfl⟩
  | b1 :: b2 :: b3 :: rest => fun h => by
    have hb1 : b1 < 256 := h b1 (by simp)
    have hb2 : b2 < 256 := h b2 (by simp)
    have hb3 : b3 < 256 := h b3 (by simp)
    have ih : base64Decode (base64Encode rest) = some rest :=
      base64_roundtrip rest (fun b hb => h b (by simp [hb]))
    simp only [base64Encode, base64Decode, b64index_b64char _ (by omega : b1 / 4 < 64),
      b64index_b64char _ (by omega : b1 % 4 * 16 + b2 / 16 < 64),
      b64index_b64char _ (by omega : b2 % 16 * 4 + b3 / 64 < 64),
      b64index_b64char _ (by omega : b3 % 64 < 64)]
    rw [if_neg (fun hc => b64char_ne_pad (b2 % 16 * 4 + b3 / 64) (by omega) hc.1),
      if_neg (fun hc => b64char_ne_pad (b3 % 64) (by omega) hc.1)]
    rw [ih]
    refine congrArg Option.some ?_
    rw [List.cons_eq_cons]
    refine ⟨by omega, ?_⟩
    rw [List.cons_eq_cons]
    refine ⟨by omega, ?_⟩
    rw [List.cons_eq_cons]
    exact ⟨by omega, rfl⟩

/-- When the model of `Atoi` reports a syntax error, the value it returns is 0. -/
theorem goAtoi_fail (s : String) (h : (goAtoi s).2 = false) : (goAtoi s).1 = 0 := by
  unfold goAtoi at h ⊢
  split at h <;> split at h <;> simp_all

/-- `imaging.Resize` with strictly positive target dimensions and a nondegenerate
source produces exactly the requested dimensions. -/
theorem imaging_Resize_pos (img : Image) (w h : Int) (hw : 0 < w) (hh : 0 < h)
    (hsw : 0 < img.width) (hsh : 0 < img.height) :
    imaging_Resize img w h = ⟨w.toNat, h.toNat, img.pix⟩ := by
  unfold imaging_Resize
  have g1 : ¬(w < 0 ∨ h < 0) := by omega
  have g2 : ¬(w = 0 ∧ h = 0) := by omega
  have g3 : ¬(img.width = 0 ∨ img.height = 0) := by omega
  have g4 : ¬(w = 0) := by omega
  have g5 : ¬(h = 0) := by omega
  simp only [if_neg g1, if_neg g2, if_neg g3, if_neg g4, if_neg g5]

/-- The resizer's output is the base64 text of the JPEG encoding of
`passOrResize` of the decoded image. -/
theorem resizer_eq_encode (codec : Codec) (src : List Nat) (cfg : RequestConfig)
    (img : Image) (bs : List Nat) (hdec : codec.decode src = .ok img)
    (henc : codec.encodeJPEG (passOrResize img cfg.Width cfg.Height) = .ok bs) :
    resizer codec src cfg = .ok (base64Encode bs) := by
  unfold passOrResize at henc
  by_cases hc : (img.width : Int) ≤ cfg.Width
  · rw [if_pos hc] at henc
    simp [resizer, hdec, hc, henc]
  · rw [if_neg hc] at henc
    simp [resizer, hdec, hc, henc]

/-- A path failing the containment check short-circuits to a 400 with a nil error. -/
theorem handler_hostFail (codec : Codec) (stor : StorageFn) (req : APIGatewayProxyRequest)
    (h : hostAllowed req.Path = false) :
    handler codec stor req = .returns (errResponse 400) none := by
  simp [handler, h, errorsWithMessage]

/-- Nonpositive width and height short-circuit to a 400 with a nil error. -/
theorem handler_dimsFail (codec : Codec) (stor : StorageFn) (req : APIGatewayProxyRequest)
    (h : hostAllowed req.Path = true)
    (hw : reqWidth req ≤ 0) (hh : reqHeight req ≤ 0) :
    handler codec stor req = .returns (errResponse 400) none := by
  simp [handler, h, hw, hh, errorsWithMessage]

/-- A failed storage fetch maps to 404 on a missing bucket/key and to 500 with a
non-nil error otherwise. -/
theorem handler_storErr (codec : Codec) (stor : StorageFn) (req : APIGatewayProxyRequest)
    (e : AwsError)
    (h1 : hostAllowed req.Path = true)
    (h2 : ¬(reqWidth req ≤ 0 ∧ reqHeight req ≤ 0))
    (hstor : stor bucketName req.Path = .error e) :
    handler codec stor req =
      if isNotFoundErr e then .returns (errResponse 404) none
      else .returns (errResponse 500)
        (some (.withMessage (.fromAws e) "WIDTH AND HEIGHT INVALID DATA")) := by
  cases e with
  | plain => simp [handler, h1, h2, hstor, isNotFoundErr, errorsWithMessage]
  | awsErr code =>
    by_cases hc : code = "NoSuchBucket" ∨ code = "NoSuchKey"
    · rw [if_pos (by simp only [isNotFoundErr, Bool.or_eq_true, beq_iff_eq]; exact hc)]
      simp [handler, h1, h2, hstor, hc, errorsWithMessage]
    · rw [if_neg (by simp only [isNotFoundErr, Bool.or_eq_true, beq_iff_eq]; exact hc)]
      simp [handler, h1, h2, hstor, hc, errorsWithMessage]

/-- A resizer failure after a successful fetch maps to 500 with a non-nil error. -/
theorem handler_resizeErr (codec : Codec) (stor : StorageFn) (req : APIGatewayProxyRequest)
    (out : GetObjectOutput) (ge : GoError)
    (h1 : hostAllowed req.Path = true)
    (h2 : ¬(reqWidth req ≤ 0 ∧ reqHeight req ≤ 0))
    (hstor : stor bucketName req.Path = .ok out)
    (hres : resizer codec out.Body ⟨bucketName, req.Path, reqWidth req, reqHeight req⟩ = .error ge) :
    handler codec stor req =
      .returns (errResponse 500) (some (.withMessage ge "RESIZE PARSING ERROR")) := by
  simp [handler, h1, h2, hstor, hres, errorsWithMessage]

/-- The success envelope: 200, base64-marked body, storage metadata forwarded. -/
theorem handler_success (codec : Codec) (stor : StorageFn) (req : APIGatewayProxyRequest)
    (out : GetObjectOutput) (rb : List Nat) (cc lm et : String)
    (h1 : hostAllowed req.Path = true)
    (h2 : ¬(reqWidth req ≤ 0 ∧ reqHeight req ≤ 0))
    (hstor : stor bucketName req.Path = .ok out)
    (hres : resizer codec out.Body ⟨bucketName, req.Path, reqWidth req, reqHeight req⟩ = .ok rb)
    (hcc : out.CacheControl = some cc) (hlm : out.LastModified = some lm)
    (het : out.ETag = some et) :
    handler codec stor req =
      .returns
        { Body := rb
          Headers :=
            [("Content-Type", "image/jpeg"), ("Cache-Control", cc),
             ("Last-Modified", lm), ("ETag", et)]
          StatusCode := 200
          IsBase64Encoded := true } none := by
  simp [handler, h1, h2, hstor, hres, hcc, hlm, het]

/-- A nil cache-control or etag pointer makes the envelope construction panic. -/
theorem handler_panic (codec : Codec) (stor : StorageFn) (req : APIGatewayProxyRequest)
    (out : GetObjectOutput) (rb : List Nat)
    (h1 : hostAllowed req.Path = true)
    (h2 : ¬(reqWidth req ≤ 0 ∧ reqHeight req ≤ 0))
    (hstor : stor bucketName req.Path = .ok out)
    (hres : resizer codec out.Body ⟨bucketName, req.Path, reqWidth req, reqHeight req⟩ = .ok rb)
    (hmeta : out.CacheControl = none ∨ out.ETag = none) :
    handler codec stor req = .panics := by
  rcases hmeta with hm | hm
  · cases hlm : out.LastModified <;> cases het : out.ETag <;>
      simp [handler, h1, h2, hstor, hres, hm, hlm, het]
  · cases hcc : out.CacheControl <;> cases hlm : out.LastModified <;>
      simp [handler, h1, h2, hstor, hres, hm, hcc, hlm]

/-- The handler depends on the request only through its path and the two parsed
dimension values. -/
theorem handler_congr (codec : Codec) (stor : StorageFn)
    (p1 p2 : APIGatewayProxyRequest) (hP : p1.Path = p2.Path)
    (hw : reqWidth p1 = reqWidth p2) (hh : reqHeight p1 = reqHeight p2) :
    handler codec stor p1 = handler codec stor p2 := by
  unfold handler
  rw [hP, hw, hh]

/-! ### Concrete fixtures for witnesses and counterexamples -/

/-- A codec whose decoder always yields a 500×400 image and whose JPEG encoder
emits the encoded image's dimensions as the byte payload, so that theorems can
observe which dimensions reached the encoder. -/
def probeCodec : Codec :=
  { decode := fun _ => .ok ⟨500, 400, []⟩
    encodeJPEG := fun i => .ok [i.width, i.height] }

/-- A storage state holding one decodable object with full metadata. -/
def storObject : StorageFn :=
  fun _ _ =>
    .ok ⟨[7], some "max-age=604800", some "Thu, 01 Jan 1970 00:00:00 GMT", some "etag-1"⟩

/-- A storage state that reports a missing key. -/
def storNoKey : StorageFn := fun _ _ => .error (.awsErr "NoSuchKey")

/-- A storage state whose successful response carries no Cache-Control metadata. -/
def storNoCacheMeta : StorageFn :=
  fun _ _ => .ok ⟨[7], none, some "Thu, 01 Jan 1970 00:00:00 GMT", some "etag-1"⟩

/-- Query string `width=100`. -/
def qpWidth100 : String → Option String :=
  fun k => if k = "width" then some "100" else none

/-- Query string `width=100&height=80`. -/
def qpW100H80 : String → Option String :=
  fun k => if k = "width" then some "100" else if k = "height" then some "80" else none

/-- Empty query string. -/
def qpEmpty : String → Option String := fun _ => none

/-! ### Claims -/

/-- Claim C1: for every successfully fetched and decoded image whose width is at
most the requested width, the resizer returns that very image re-encoded to JPEG
— dimensions unchanged, never upscaled — base64-encoded. -/
theorem claim_C1_passthrough (codec : Codec) (src : List Nat) (cfg : RequestConfig)
    (img : Image) (bs : List Nat)
    (hdec : codec.decode src = .ok img)
    (hw : (img.width : Int) ≤ cfg.Width)
    (henc : codec.encodeJPEG img = .ok bs) :
    resizer codec src cfg = .ok (base64Encode bs) :=
  resizer_eq_encode codec src cfg img bs hdec
    (by simpa [passOrResize, hw] using henc)

/-- Witness for C1: a 500×400 source under requested width 600 passes through. -/
theorem claim_C1_witness :
    resizer probeCodec [7] ⟨"b", "k", 600, 0⟩ = .ok (base64Encode [500, 400]) :=
  claim_C1_passthrough probeCodec [7] ⟨"b", "k", 600, 0⟩ ⟨500, 400, []⟩ [500, 400]
    rfl (by decide) rfl

/-- Counterexample to C2: a 500×400 object requested at width=100 with height
absent (hence 0) is accepted by the validator, yet the encoder receives a 100×80
image — the height is derived from the aspect ratio — not the claimed exact
(100, 0): the success body is the base64 of the encoding of a 100×80 image, and
80 ≠ 0. -/
theorem claim_C2_counterexample :
    handler probeCodec storObject ⟨"images", qpWidth100⟩ =
      .returns
        { Body := base64Encode [100, 80]
          Headers :=
            [("Content-Type", "image/jpeg"), ("Cache-Control", "max-age=604800"),
             ("Last-Modified", "Thu, 01 Jan 1970 00:00:00 GMT"), ("ETag", "etag-1")]
          StatusCode := 200
          IsBase64Encoded := true } none
    ∧ ¬(80 = 0) := ⟨by decide, by decide⟩

/-- Claim C2 amended: for a decoded image strictly wider than the requested
width, the output has exactly the requested dimensions whenever both requested
dimensions are strictly positive (and the decoded image is nondegenerate); when
the requested height is 0 the external resampler instead derives the height from
the aspect ratio, so the claim's "including height 0" case does not hold. -/
theorem claim_C2_amended (codec : Codec) (src : List Nat) (cfg : RequestConfig)
    (img : Image) (bs : List Nat)
    (hdec : codec.decode src = .ok img)
    (hgt : cfg.Width < (img.width : Int))
    (hw : 0 < cfg.Width) (hh : 0 < cfg.Height) (hsh : 0 < img.height)
    (henc : codec.encodeJPEG (imaging_Resize img cfg.Width cfg.Height) = .ok bs) :
    resizer codec src cfg = .ok (base64Encode bs) ∧
    imaging_Resize img cfg.Width cfg.Height =
      ⟨cfg.Width.toNat, cfg.Height.toNat, img.pix⟩ := by
  have hsw : 0 < img.width := by omega
  constructor
  · exact resizer_eq_encode codec src cfg img bs hdec
      (by simpa [passOrResize, not_le.mpr hgt] using henc)
  · exact imaging_Resize_pos img cfg.Width cfg.Height hw hh hsw hsh

/-- Witness for the amended C2 at a 500×400 source and a 100×80 request. -/
theorem claim_C2_witness :
    resizer probeCodec [7] ⟨"b", "k", 100, 80⟩ = .ok (base64Encode [100, 80]) ∧
    imaging_Resize ⟨500, 400, []⟩ 100 80 = ⟨100, 80, []⟩ :=
  claim_C2_amended probeCodec [7] ⟨"b", "k", 100, 80⟩ ⟨500, 400, []⟩ [100, 80]
    rfl (by decide) (by decide) (by decide) (by decide) rfl

/-- Counterexample to C3: the path "images" is not a member of the allowed-hosts
set, yet the handler accepts it (the check is substring containment), queries
storage, and the storage state changes the outcome — 200 with the object present,
404 when the key is missing — so storage was invoked and the status is not 400. -/
theorem claim_C3_counterexample :
    ¬("images" ∈ allowedHosts) ∧
    outcomeStatus (handler probeCodec storObject ⟨"images", qpWidth100⟩) = some 200 ∧
    outcomeStatus (handler probeCodec storNoKey ⟨"images", qpWidth100⟩) = some 404 :=
  ⟨by decide, by decide, by decide⟩

/-- Claim C3 amended: the code's allow-list check is substring containment, not
set membership — for every request whose path is not a substring of the
comma-joined allow-list "images.story.io", the response is a 400 and the storage
client is never invoked (the outcome is identical under every storage state). -/
theorem claim_C3_amended (codec : Codec) (stor : StorageFn)
    (req : APIGatewayProxyRequest) (h : hostAllowed req.Path = false) :
    handler codec stor req = .returns (errResponse 400) none ∧
    ∀ stor2 : StorageFn, handler codec stor2 req = handler codec stor req := by
  refine ⟨handler_hostFail codec stor req h, fun stor2 => ?_⟩
  rw [handler_hostFail codec stor req h, handler_hostFail codec stor2 req h]

/-- Witness for the amended C3 at the disallowed path "/foo". -/
theorem claim_C3_witness :
    handler probeCodec storObject ⟨"/foo", qpWidth100⟩ = .returns (errResponse 400) none :=
  (claim_C3_amended probeCodec storObject ⟨"/foo", qpWidth100⟩ (by decide)).1

/-- Claim C4 (code defect): for path `/images.story.io` with width=100 and
height=80 and a decodable 500px-wide stored object present, the spec's Scenario B
expects 200 with a 100×80 JPEG body, but
`strings.Contains("images.story.io", "/images.story.io")` is false — the leading
slash of every real request path defeats the substring allow-list — so the
handler returns 400 with the standard phrase and never reaches storage. -/
theorem claim_C4_slashRejected :
    hostAllowed "/images.story.io" = false ∧
    handler probeCodec storObject ⟨"/images.story.io", qpW100H80⟩ =
      .returns (errResponse 400) none :=
  ⟨by decide, by decide⟩

/-- Claim C5: whenever both query dimensions resolve to a value ≤ 0, the
response status is 400, for every path, codec and storage state. -/
theorem claim_C5_badDims (codec : Codec) (stor : StorageFn)
    (req : APIGatewayProxyRequest)
    (hw : reqWidth req ≤ 0) (hh : reqHeight req ≤ 0) :
    outcomeStatus (handler codec stor req) = some 400 := by
  cases hb : hostAllowed req.Path with
  | false => rw [handler_hostFail codec stor req hb]; rfl
  | true => rw [handler_dimsFail codec stor req hb hw hh]; rfl

/-- Witness for C5 at an allowed path with both parameters absent. -/
theorem claim_C5_witness :
    outcomeStatus (handler probeCodec storObject ⟨"images", qpEmpty⟩) = some 400 :=
  claim_C5_badDims probeCodec storObject ⟨"images", qpEmpty⟩ (by decide) (by decide)

/-- Claim C6: when the storage fetch of a validated request fails, a missing
bucket or key yields a 404 and any other storage fault a 500, the response body
being the standard phrase of the status code in both cases. -/
theorem claim_C6_storageFailure (codec : Codec) (stor : StorageFn)
    (req : APIGatewayProxyRequest) (e : AwsError)
    (h1 : hostAllowed req.Path = true)
    (h2 : ¬(reqWidth req ≤ 0 ∧ reqHeight req ≤ 0))
    (hstor : stor bucketName req.Path = .error e) :
    (isNotFoundErr e = true →
      outcomeStatus (handler codec stor req) = some 404 ∧
      outcomeBody (handler codec stor req) = some (strBytes "Not Found")) ∧
    (isNotFoundErr e = false →
      outcomeStatus (handler codec stor req) = some 500 ∧
      outcomeBody (handler codec stor req) = some (strBytes "Internal Server Error")) := by
  rw [handler_storErr codec stor req e h1 h2 hstor]
  constructor
  · intro he
    rw [if_pos he]
    exact ⟨rfl, rfl⟩
  · intro he
    rw [if_neg (by simp [he])]
    exact ⟨rfl, rfl⟩

/-- Witness for C6: a missing key on a validated request gives 404 "Not Found". -/
theorem claim_C6_witness :
    outcomeStatus (handler probeCodec storNoKey ⟨"images", qpWidth100⟩) = some 404 ∧
    outcomeBody (handler probeCodec storNoKey ⟨"images", qpWidth100⟩) =
      some (strBytes "Not Found") :=
  (claim_C6_storageFailure probeCodec storNoKey ⟨"images", qpWidth100⟩
    (.awsErr "NoSuchKey") (by decide) (by decide) rfl).1 (by decide)

/-- Claim C7: a width or height query parameter that is absent or non-numeric is
treated as the value 0 — the parsed value is 0 and the handler behaves exactly as
if that parameter had been supplied as "0". -/
theorem claim_C7_absentOrBadIsZero (codec : Codec) (stor : StorageFn)
    (path : String) (q : String → Option String) (p : String)
    (hp : p = "width" ∨ p = "height")
    (hbad : q p = none ∨ (goAtoi ((q p).getD "")).2 = false) :
    (goAtoi ((q p).getD "")).1 = 0 ∧
    handler codec stor ⟨path, q⟩ = handler codec stor ⟨path, setQuery q p "0"⟩ := by
  have hfail : (goAtoi ((q p).getD "")).2 = false := by
    rcases hbad with hb | hb
    · rw [hb]; rfl
    · exact hb
  have hz : (goAtoi ((q p).getD "")).1 = 0 := goAtoi_fail _ hfail
  refine ⟨hz, ?_⟩
  rcases hp with hp | hp <;> subst hp
  · exact handler_congr codec stor _ _ rfl (hz.trans (rfl : (0 : Int) = 0)) rfl
  · exact handler_congr codec stor _ _ rfl rfl (hz.trans (rfl : (0 : Int) = 0))

/-- Witness for C7: an absent width parameter behaves as width "0". -/
theorem claim_C7_witness :
    (goAtoi ((qpEmpty "width").getD "")).1 = 0 ∧
    handler probeCodec storObject ⟨"images", qpEmpty⟩ =
      handler probeCodec storObject ⟨"images", setQuery qpEmpty "width" "0"⟩ :=
  claim_C7_absentOrBadIsZero probeCodec storObject "images" qpEmpty "width"
    (Or.inl rfl) (Or.inl rfl)

/-- Claim C8: every success (200) response's body is the base64 text of the JPEG
bytes the encoder produced for the pass-through-or-resize image, and
base64-decoding the body recovers exactly those bytes. -/
theorem claim_C8_roundtrip (codec : Codec) (stor : StorageFn)
    (req : APIGatewayProxyRequest) (out : GetObjectOutput) (img : Image)
    (bs : List Nat) (cc lm et : String)
    (h1 : hostAllowed req.Path = true)
    (h2 : ¬(reqWidth req ≤ 0 ∧ reqHeight req ≤ 0))
    (hstor : stor bucketName req.Path = .ok out)
    (hdec : codec.decode out.Body = .ok img)
    (henc : codec.encodeJPEG (passOrResize img (reqWidth req) (reqHeight req)) = .ok bs)
    (hbytes : ∀ b ∈ bs, b < 256)
    (hcc : out.CacheControl = some cc) (hlm : out.LastModified = some lm)
    (het : out.ETag = some et) :
    outcomeStatus (handler codec stor req) = some 200 ∧
    outcomeBody (handler codec stor req) = some (base64Encode bs) ∧
    base64Decode (base64Encode bs) = some bs := by
  have hres : resizer codec out.Body ⟨bucketName, req.Path, reqWidth req, reqHeight req⟩ =
      .ok (base64Encode bs) :=
    resizer_eq_encode codec out.Body _ img bs hdec henc
  rw [handler_success codec stor req out (base64Encode bs) cc lm et h1 h2 hstor hres hcc hlm het]
  exact ⟨rfl, rfl, base64_roundtrip bs hbytes⟩

/-- Witness for C8 at a 500×400 object under a 100×80 request. -/
theorem claim_C8_witness :
    outcomeStatus (handler probeCodec storObject ⟨"images", qpW100H80⟩) = some 200 ∧
    outcomeBody (handler probeCodec storObject ⟨"images", qpW100H80⟩) =
      some (base64Encode [100, 80]) ∧
    base64Decode (base64Encode [100, 80]) = some [100, 80] :=
  claim_C8_roundtrip probeCodec storObject ⟨"images", qpW100H80⟩
    ⟨[7], some "max-age=604800", some "Thu, 01 Jan 1970 00:00:00 GMT", some "etag-1"⟩
    ⟨500, 400, []⟩ [100, 80] "max-age=604800" "Thu, 01 Jan 1970 00:00:00 GMT" "etag-1"
    (by decide) (by decide) rfl rfl rfl (by decide) rfl rfl rfl

/-- Claim C9: the success-envelope construction dereferences the CacheControl and
ETag metadata pointers unconditionally, so a successful fetch and resize whose
storage response lacks Cache-Control (or ETag) metadata makes the handler panic
with a nil-pointer dereference instead of returning an envelope. -/
theorem claim_C9_nilMetaPanics (codec : Codec) (stor : StorageFn)
    (req : APIGatewayProxyRequest) (out : GetObjectOutput) (rb : List Nat)
    (h1 : hostAllowed req.Path = true)
    (h2 : ¬(reqWidth req ≤ 0 ∧ reqHeight req ≤ 0))
    (hstor : stor bucketName req.Path = .ok out)
    (hres : resizer codec out.Body ⟨bucketName, req.Path, reqWidth req, reqHeight req⟩ = .ok rb)
    (hmeta : out.CacheControl = none ∨ out.ETag = none) :
    handler codec stor req = .panics :=
  handler_panic codec stor req out rb h1 h2 hstor hres hmeta

/-- Witness for C9: a successful fetch without Cache-Control metadata panics. -/
theorem claim_C9_witness :
    handler probeCodec storNoCacheMeta ⟨"images", qpW100H80⟩ = .panics :=
  claim_C9_nilMetaPanics probeCodec storNoCacheMeta ⟨"images", qpW100H80⟩
    ⟨[7], none, some "Thu, 01 Jan 1970 00:00:00 GMT", some "etag-1"⟩
    (base64Encode [100, 80])
    (by decide) (by decide) rfl rfl (Or.inl rfl)

/-- Claim C10: validation rejections return a nil Go error (`errors.WithMessage`
of a nil cause is nil), so the 400 envelope is the sole result, while every
non-NotFound storage failure and every decode/encode (resizer) failure returns a
non-nil error alongside the 500 envelope. -/
theorem claim_C10_errDiscipline (codec : Codec) (stor : StorageFn)
    (req : APIGatewayProxyRequest) :
    (hostAllowed req.Path = false ∨ (reqWidth req ≤ 0 ∧ reqHeight req ≤ 0) →
      outcomeErr (handler codec stor req) = some none) ∧
    (∀ e : AwsError, hostAllowed req.Path = true →
      ¬(reqWidth req ≤ 0 ∧ reqHeight req ≤ 0) →
      stor bucketName req.Path = .error e → isNotFoundErr e = false →
      outcomeErr (handler codec stor req) =
        some (some (.withMessage (.fromAws e) "WIDTH AND HEIGHT INVALID DATA"))) ∧
    (∀ (out : GetObjectOutput) (ge : GoError), hostAllowed req.Path = true →
      ¬(reqWidth req ≤ 0 ∧ reqHeight req ≤ 0) →
      stor bucketName req.Path = .ok out →
      resizer codec out.Body ⟨bucketName, req.Path, reqWidth req, reqHeight req⟩ = .error ge →
      outcomeErr (handler codec stor req) =
        some (some (.withMessage ge "RESIZE PARSING ERROR"))) := by
  refine ⟨?_, ?_, ?_⟩
  · rintro (h | ⟨hw, hh⟩)
    · rw [handler_hostFail codec stor req h]; rfl
    · cases hb : hostAllowed req.Path with
      | false => rw [handler_hostFail codec stor req hb]; rfl
      | true => rw [handler_dimsFail codec stor req hb hw hh]; rfl
  · intro e h1 h2 hstor he
    rw [handler_storErr codec stor req e h1 h2 hstor, if_neg (by simp [he])]
    rfl
  · intro out ge h1 h2 hstor hres
    rw [handler_resizeErr codec stor req out ge h1 h2 hstor hres]
    rfl

/-- Witness for C10: a disallowed path returns the 400 envelope with a nil error. -/
theorem claim_C10_witness :
    outcomeErr (handler probeCodec storObject ⟨"/nope", qpWidth100⟩) = some none :=
  (claim_C10_errDiscipline probeCodec storObject ⟨"/nope", qpWidth100⟩).1
    (Or.inl (by decide))

end ImgResize
